import Mathlib

/-!
Shallow embedding of the raster value-to-color rendering pipeline of the
bethel-flood-visualizer application, together with theorems checking the
specification's claims against it.

Numbers are modelled as exact rationals (`ℚ`); JavaScript's special values
`undefined`, `null` and `NaN` are modelled explicitly by the `JSVal` type.
The embedded functions follow the JavaScript source line by line:
  - `pixelValuesToColorFn`   — MapComponent.jsx, the callback handed to
    `GeoRasterLayer` (lines 73-89);
  - `canvasWritePixel` / `canvasImageData` — the canvas pixel loop of the
    geotiff-based variant (unnamed part_000, lines 83-115);
  - `displayBoundsFor`       — useTiffData.js, lines 104-114;
  - `formatLegendNumber`, `useLegend` — mapConstants.jsx and useLegend.jsx;
  - `sortedTiffs`            — the newest-first resource sort of
    `getAllTiffResources` / `getLatestTiffUrl`;
  - `beginLoad` / `completeLoad` / `applyLayerEffect` — the state updates
    performed by `loadTiffData` and the overlay `useEffect` of
    MapComponent.jsx.
-/

namespace FloodViz

/-- A JavaScript value as it can appear as a raster sample: `undefined`,
`null`, `NaN`, or an ordinary number (modelled as an exact rational). -/
inductive JSVal where
  | undefined
  | null
  | nan
  | num (q : ℚ)
deriving DecidableEq, Repr

/-- JavaScript's global `isNaN` coerces its argument: `isNaN(undefined)` is
true (undefined coerces to NaN), `isNaN(null)` is false (null coerces to 0). -/
def jsIsNaN : JSVal → Bool
  | .undefined => true
  | .null => false
  | .nan => true
  | .num _ => false

/-- The JavaScript comparison `v < bound` for a numeric `bound`: any
comparison involving NaN (hence also `undefined`, which coerces to NaN) is
false; `null` coerces to 0. -/
def jsLtNum (v : JSVal) (bound : ℚ) : Bool :=
  match v with
  | .undefined => false
  | .null => decide ((0 : ℚ) < bound)
  | .nan => false
  | .num q => decide (q < bound)

/-- Numeric coercion as used by `Math.min` / `Math.max`: `null` coerces to 0.
`undefined` and `NaN` coerce to NaN; in the embedded code both are filtered
out by the guards before any arithmetic, so mapping them to 0 here is never
observable. -/
def jsToNum : JSVal → ℚ
  | .undefined => 0
  | .null => 0
  | .nan => 0
  | .num q => q

/-- The fixed 10-entry purple palette (mapConstants.jsx). -/
def purpleGradientColors : List String :=
  ["#F8F4FF", "#E8D5F2", "#D4B3E8", "#C191DE", "#BD6FCB",
   "#A855C7", "#9333EA", "#7C3AED", "#6B21A8", "#581C87"]

/-- `const min = -2` of both rendering paths. -/
def rampMin : ℚ := -2

/-- `const max = 0.2` of both rendering paths. -/
def rampMax : ℚ := 0.2

/-- `const range = max - min`. -/
def rampRange : ℚ := rampMax - rampMin

/-- `const numColors = purpleGradientColors.length`. -/
def numColors : ℕ := purpleGradientColors.length

/-- Value of a single hexadecimal digit, upper or lower case (the source
regex `[a-f\d]` is applied case-insensitively). -/
def hexDigitVal (c : Char) : Option ℕ :=
  if ('0' ≤ c ∧ c ≤ '9') then some (c.toNat - 48)
  else if ('a' ≤ c ∧ c ≤ 'f') then some (c.toNat - 87)
  else if ('A' ≤ c ∧ c ≤ 'F') then some (c.toNat - 55)
  else none

/-- `parseInt(s, 16)` on a two-character hex pair. -/
def hexPair (c1 c2 : Char) : Option ℕ := do
  let h ← hexDigitVal c1
  let l ← hexDigitVal c2
  pure (16 * h + l)

/-- The `hexToRgb` helper of the canvas variant: matches an optional `#`
followed by exactly three hex pairs, returning the RGB triple, else null. -/
def hexToRgb (hex : String) : Option (ℕ × ℕ × ℕ) :=
  let cs := hex.toList
  let cs := match cs with
    | '#' :: rest => rest
    | other => other
  match cs with
  | [c1, c2, c3, c4, c5, c6] => do
      let r ← hexPair c1 c2
      let g ← hexPair c3 c4
      let b ← hexPair c5 c6
      pure (r, g, b)
  | _ => none

/-- `pixelValuesToColorFn` of MapComponent.jsx (lines 73-89): the callback
handed to `GeoRasterLayer`.  `values[0]` of an empty array is `undefined`;
returning `null` (transparent) is modelled as `none`. -/
def pixelValuesToColorFn (values : List JSVal) : Option String :=
  let pixelValue := values.headD .undefined
  if pixelValue = .undefined ∨ pixelValue = .null ∨ jsIsNaN pixelValue = true
      ∨ jsLtNum pixelValue rampMin = true then
    none
  else
    let clampedValue := max rampMin (min rampMax (jsToNum pixelValue))
    let normalized := (clampedValue - rampMin) / rampRange
    if normalized = 1 then
      some (purpleGradientColors.getD (numColors - 1) "")
    else
      some (purpleGradientColors.getD (Int.toNat ⌊normalized * (numColors : ℚ)⌋) "")

/-- The `opacity: 0.7` option passed to `GeoRasterLayer` in
MapComponent.jsx. -/
def layerOpacity : ℚ := 0.7

/-- `const colorRamp = purpleGradientColors.map(hexToRgb)` of the canvas
variant. -/
def colorRamp : List (Option (ℕ × ℕ × ℕ)) := purpleGradientColors.map hexToRgb

/-- What the canvas pixel loop writes for one sample: either only alpha 0
(transparent) or an RGB triple plus the 70 % alpha. -/
inductive PixelWrite where
  | transparent
  | color (c : ℕ × ℕ × ℕ)
deriving DecidableEq, Repr

/-- The per-sample classification performed by the canvas loop body of the
geotiff variant (part_000, lines 98-113).  The loop reads samples from a
typed array, so `null` can never actually occur here — note that, unlike
`pixelValuesToColorFn`, the guard does not test for `null`.  The `none`
branch of the final match is the `else` fallback (`data[j+3] = 0`) taken
when `colorRamp[colorIndex]` is falsy. -/
def canvasWritePixel (pixelValue : JSVal) : PixelWrite :=
  if pixelValue = .undefined ∨ jsIsNaN pixelValue = true
      ∨ jsLtNum pixelValue rampMin = true then
    .transparent
  else
    let clampedValue := max rampMin (min rampMax (jsToNum pixelValue))
    let normalized := (clampedValue - rampMin) / rampRange
    let colorIndex : ℤ := min ((numColors : ℤ) - 1) ⌊normalized * (numColors : ℚ)⌋
    match colorRamp.getD colorIndex.toNat none with
    | some c => .color c
    | none => .transparent

/-- The canvas pixel loop of the geotiff variant (part_000, lines 94-115)
acting on the whole `ImageData` buffer: the buffer holds
`width * height * 4` bytes, all initially 0, and the loop runs over every
sample `i` of the (band-interleaved) raster array, writing at byte offset
`i * 4`.  Out-of-range writes on a `Uint8ClampedArray` are silently
dropped, which `List.set` models exactly.  The stored alpha is the
source's `255 * 0.7`. -/
def canvasImageData (rasters : List JSVal) (width height : ℕ) : List ℚ :=
  (List.range rasters.length).foldl
    (fun data i =>
      let j := i * 4
      match canvasWritePixel (rasters.getD i .undefined) with
      | .transparent => data.set (j + 3) 0
      | .color (r, g, b) =>
          ((((data.set j (r : ℚ)).set (j + 1) (g : ℚ)).set (j + 2) (b : ℚ)).set
            (j + 3) (255 * (0.7 : ℚ))))
    (List.replicate (width * height * 4) (0 : ℚ))

/-- The display bounds computed by `loadTiffData` of useTiffData.js
(lines 104-114): field names follow the source object literals. -/
structure DisplayBounds where
  xmin : ℚ
  xmax : ℚ
  ymin : ℚ
  ymax : ℚ
  isProjected : Bool
  originalBounds : Option (ℚ × ℚ × ℚ × ℚ)
deriving DecidableEq, Repr

/-- `isGeographic` test and `displayBounds` ternary of useTiffData.js:
geographic bounds are passed through; otherwise the fixed Gulf-coast
fallback box is substituted and the native bounds are kept in
`originalBounds`. -/
def displayBoundsFor (xmin xmax ymin ymax : ℚ) : DisplayBounds :=
  if xmin ≥ -180 ∧ xmax ≤ 180 ∧ ymin ≥ -90 ∧ ymax ≤ 90 then
    { xmin := xmin, xmax := xmax, ymin := ymin, ymax := ymax,
      isProjected := false, originalBounds := none }
  else
    { xmin := -97.5, xmax := -80.0, ymin := 25.0, ymax := 30.5,
      isProjected := true, originalBounds := some (xmin, xmax, ymin, ymax) }

/-- `Number.prototype.toFixed(3)`: round to the nearest multiple of 0.001
(ties upward in magnitude, per ECMA-262), printed with exactly three
fractional digits and a leading minus sign for negatives. -/
def toFixed3 (q : ℚ) : String :=
  let sign := if q < 0 then "-" else ""
  let n : ℕ := (⌊|q| * 1000 + 1 / 2⌋).toNat
  let ip := n / 1000
  let fp := n % 1000
  let fps :=
    if fp < 10 then "00" ++ toString fp
    else if fp < 100 then "0" ++ toString fp
    else toString fp
  sign ++ toString ip ++ "." ++ fps

/-- `formatLegendNumber` of mapConstants.jsx: `null`/`undefined` give
`"N/A"`; `parseFloat` of a non-number gives NaN, which also gives `"N/A"`;
a number is rendered with `toFixed(3)`. -/
def formatLegendNumber : JSVal → String
  | .undefined => "N/A"
  | .null => "N/A"
  | .nan => "N/A"
  | .num q => toFixed3 q

/-- One entry of `visualizationOptions` (mapConstants.jsx). -/
structure Visualization where
  value : String
  label : String
deriving DecidableEq, Repr

/-- The slice of the CKAN dataset descriptor consumed by `useLegend`
(`datasetInfo?.name`). -/
structure DatasetInfoM where
  name : Option String
deriving DecidableEq, Repr

/-- One element of the `ranges` array built by `useLegend`. -/
structure LegendRange where
  color : String
  label : String
deriving DecidableEq, Repr

/-- The legend configuration object returned by `useLegend`. -/
structure LegendConfig where
  title : String
  description : String
  visualizationType : String
  ranges : List LegendRange
deriving DecidableEq, Repr

/-- `useLegend` of useLegend.jsx: null when no visualization is selected;
otherwise a config whose `ranges` maps each palette color to a formatted
decile interval.  `datasetInfo?.name` is included in the description only
when truthy (a missing or empty name contributes nothing). -/
def useLegend (currentVisualization : Option Visualization)
    (datasetInfo : Option DatasetInfoM) (visualizationType : String) :
    Option LegendConfig :=
  match currentVisualization with
  | none => none
  | some viz =>
    let lmin : ℚ := -2
    let lmax : ℚ := 0.2
    let numSteps := purpleGradientColors.length
    let step := (lmax - lmin) / (numSteps : ℚ)
    some
      { title := viz.label ++ " Legend"
        description := "Gulf Coast InSAR Data " ++
          (match datasetInfo with
           | some d =>
             match d.name with
             | some n => if n = "" then "" else "(" ++ n ++ ")"
             | none => ""
           | none => "")
        visualizationType := visualizationType
        ranges := purpleGradientColors.enum.map (fun p =>
          let rangeStart := lmin + (p.1 : ℚ) * step
          let rangeEnd := rangeStart + step
          { color := p.2
            label := formatLegendNumber (.num rangeStart) ++ " - " ++
              formatLegendNumber (.num rangeEnd) }) }

/-- The slice of a CKAN resource descriptor consumed by the newest-first
sort: `created` and `last_modified` are epoch-millisecond timestamps,
absent when the descriptor lacks the field (JavaScript falsy). -/
structure CkanResource where
  name : String
  created : Option ℕ
  last_modified : Option ℕ
deriving DecidableEq, Repr

/-- `new Date(a.created || a.last_modified || 0)` as an epoch timestamp:
`created` when present, else `last_modified`, else epoch 0. -/
def resourceDate (r : CkanResource) : ℕ :=
  match r.created with
  | some t => t
  | none =>
    match r.last_modified with
    | some t => t
    | none => 0

/-- The ordering induced by the comparator `(a, b) => dateB - dateA`:
`a` may come before `b` exactly when `a`'s date is at least `b`'s
(descending, i.e. newest first). -/
def tiffSortRel (a b : CkanResource) : Prop := resourceDate b ≤ resourceDate a

instance : DecidableRel tiffSortRel := fun _ _ => Nat.decLe _ _

instance : IsTotal CkanResource tiffSortRel := ⟨fun _ _ => le_total _ _⟩

instance : IsTrans CkanResource tiffSortRel := ⟨fun _ _ _ h1 h2 => le_trans h2 h1⟩

/-- The `sortedTiffs` stage of `getAllTiffResources` (MapComponent.jsx,
lines 183-188) and the identical sort of `getLatestTiffUrl`
(useTiffData.js, lines 53-57): a stable sort of the TIFF resources by the
descending-date comparator.  `Array.prototype.sort` is stable and the
comparator is induced by `resourceDate`, so stable insertion sort computes
the same list. -/
def sortedTiffs (resources : List CkanResource) : List CkanResource :=
  resources.insertionSort tiffSortRel

/-- The decoded georaster as far as the overlay bookkeeping is concerned:
its bounding box. -/
structure Georaster where
  xmin : ℚ
  xmax : ℚ
  ymin : ℚ
  ymax : ℚ
deriving DecidableEq, Repr

/-- The `tiffData` state object set by `loadTiffData` of MapComponent.jsx:
either the decoded georaster (success) or the placeholder carrying the
failure message. -/
structure TiffDataR where
  georaster : Option Georaster
  info : CkanResource
  isActualData : Bool
  placeholder : Bool
  errorMsg : Option String
deriving DecidableEq, Repr

/-- The component state touched by `loadTiffData`. -/
structure TiffState where
  loading : Bool
  error : Option String
  tiffData : Option TiffDataR
deriving DecidableEq, Repr

/-- The state before any load. -/
def initialTiffState : TiffState :=
  { loading := false, error := none, tiffData := none }

/-- How one `loadTiffData` invocation ends: the decoded georaster, or the
message of the error caught by the inner catch (a failed fetch throws into
the same inner catch as a parse failure). -/
inductive LoadOutcome where
  | decodeOk (g : Georaster)
  | decodeFail (msg : String)
deriving DecidableEq, Repr

/-- The synchronous prefix of `loadTiffData` (MapComponent.jsx, lines
224-226): `setLoading(true); setError(null)`. -/
def beginLoad (s : TiffState) : TiffState :=
  { s with loading := true, error := none }

/-- The resumption of `loadTiffData` once its awaited fetch/decode settles
(MapComponent.jsx, lines 239-261): success stores the georaster, the inner
catch stores the placeholder carrying the message — in both cases by an
unconditional `setTiffData`, with no staleness guard — and the `finally`
clears the loading flag.  Note the inner catch does not touch the `error`
slot. -/
def completeLoad (rasterResource : CkanResource) (out : LoadOutcome)
    (s : TiffState) : TiffState :=
  let s' :=
    match out with
    | .decodeOk g =>
      let t : TiffDataR :=
        { georaster := some g, info := rasterResource,
          isActualData := true, placeholder := false, errorMsg := none }
      { s with tiffData := some t }
    | .decodeFail msg =>
      let t : TiffDataR :=
        { georaster := none, info := rasterResource,
          isActualData := false, placeholder := true, errorMsg := some msg }
      { s with tiffData := some t }
  { s' with loading := false }

/-- The overlay `useEffect` of MapComponent.jsx (lines 53-64 guard): when
`tiffData` has a georaster the previous layer is replaced by a new layer
built from it; otherwise the effect returns early and the currently
attached layer — possibly from an earlier raster — is left in place. -/
def applyLayerEffect (s : TiffState) (currentLayer : Option Georaster) :
    Option Georaster :=
  match s.tiffData with
  | some t =>
    match t.georaster with
    | some g => some g
    | none => currentLayer
  | none => currentLayer

/-- One completed load as the event loop sees it: the state update of
`completeLoad` followed by the React re-render running the overlay
effect. -/
def stepComplete (rasterResource : CkanResource) (out : LoadOutcome) :
    TiffState × Option Georaster → TiffState × Option Georaster :=
  fun p =>
    let s' := completeLoad rasterResource out p.1
    (s', applyLayerEffect s' p.2)

/-- The palette index `min(9, floor((clamp(v) - min) / range * 10))` that
both rendering paths are shown to select for a numeric sample. -/
def sourceIndex (q : ℚ) : ℕ :=
  min 9 (Int.toNat ⌊(max rampMin (min rampMax q) - rampMin) / rampRange * 10⌋)

/-! ### Helper lemmas shared by the claim theorems -/

lemma numColors_eq : numColors = 10 := rfl

lemma palette_get?_getD (i : ℕ) (h : i ≤ 9) :
    purpleGradientColors.get? i = some (purpleGradientColors.getD i "") := by
  interval_cases i <;> decide

lemma colorRamp_getD_eq (i : ℕ) (h : i ≤ 9) :
    ∃ c, hexToRgb (purpleGradientColors.getD i "") = some c ∧
      colorRamp.getD i none = some c := by
  interval_cases i <;> exact ⟨_, rfl, rfl⟩

lemma guardA_false (q : ℚ) (h : -2 ≤ q) :
    ¬(JSVal.num q = .undefined ∨ JSVal.num q = .null ∨ jsIsNaN (.num q) = true
        ∨ jsLtNum (.num q) rampMin = true) := by
  intro hc
  rcases hc with h1 | h1 | h1 | h1
  · exact JSVal.noConfusion h1
  · exact JSVal.noConfusion h1
  · simp [jsIsNaN] at h1
  · simp only [jsLtNum, rampMin, decide_eq_true_eq] at h1
    linarith

lemma guardB_false (q : ℚ) (h : -2 ≤ q) :
    ¬(JSVal.num q = .undefined ∨ jsIsNaN (.num q) = true
        ∨ jsLtNum (.num q) rampMin = true) := by
  intro hc
  rcases hc with h1 | h1 | h1
  · exact JSVal.noConfusion h1
  · simp [jsIsNaN] at h1
  · simp only [jsLtNum, rampMin, decide_eq_true_eq] at h1
    linarith

/-- Both rendering paths select the palette entry numbered `sourceIndex q`
for any in-domain numeric sample: the GeoRasterLayer callback returns that
palette color and the canvas loop writes its RGB decoding. -/
lemma pixel_paths_eq (q : ℚ) (h : -2 ≤ q) :
    pixelValuesToColorFn [.num q] = purpleGradientColors.get? (sourceIndex q) ∧
    sourceIndex q ≤ 9 ∧
    ∃ c, hexToRgb (purpleGradientColors.getD (sourceIndex q) "") = some c ∧
      canvasWritePixel (.num q) = .color c := by
  have hle : sourceIndex q ≤ 9 := Nat.min_le_left _ _
  simp only [pixelValuesToColorFn, canvasWritePixel, sourceIndex, List.headD,
    jsToNum]
  rw [if_neg (guardA_false q h), if_neg (guardB_false q h)]
  have hcast : ((numColors : ℚ)) = 10 := by norm_num [numColors, purpleGradientColors]
  have hcastz : ((numColors : ℤ)) = 10 := by norm_num [numColors, purpleGradientColors]
  set m := max rampMin (min rampMax q) with hm
  have hm1 : rampMin ≤ m := le_max_left _ _
  have hm2 : m ≤ rampMax := by
    apply max_le
    · norm_num [rampMin, rampMax]
    · exact min_le_left _ _
  have hrange : (0 : ℚ) < rampRange := by norm_num [rampRange, rampMin, rampMax]
  set n := (m - rampMin) / rampRange with hn
  have hn0 : (0 : ℚ) ≤ n := div_nonneg (by linarith) (le_of_lt hrange)
  have hrr : rampRange = rampMax - rampMin := rfl
  have hn1 : n ≤ 1 := by
    rw [hn, div_le_one hrange]
    rw [hrr]
    linarith
  rw [hcast, hcastz, numColors_eq]
  by_cases hone : n = 1
  · have hfl : ⌊n * (10 : ℚ)⌋ = 10 := by rw [hone]; norm_num
    rw [if_pos hone, hfl]
    have hsi : min 9 (Int.toNat 10) = 9 := by decide
    rw [hsi]
    refine ⟨by decide, by omega, ?_⟩
    have hmin : min ((10 : ℤ) - 1) 10 = 9 := by decide
    rw [hmin]
    exact ⟨(88, 28, 135), by decide, by decide⟩
  · have hnlt : n < 1 := lt_of_le_of_ne hn1 hone
    have hfl0 : 0 ≤ ⌊n * (10 : ℚ)⌋ := Int.floor_nonneg.mpr (by positivity)
    have hfl9 : ⌊n * (10 : ℚ)⌋ < 10 := by
      apply Int.floor_lt.mpr
      push_cast
      linarith
    rw [if_neg hone]
    have hmin9 : min 9 (Int.toNat ⌊n * (10 : ℚ)⌋) = Int.toNat ⌊n * (10 : ℚ)⌋ := by
      omega
    have hminz : (min ((10 : ℤ) - 1) ⌊n * (10 : ℚ)⌋).toNat
        = Int.toNat ⌊n * (10 : ℚ)⌋ := by
      omega
    rw [hmin9, hminz]
    have hile : Int.toNat ⌊n * (10 : ℚ)⌋ ≤ 9 := by omega
    obtain ⟨c, hc1, hc2⟩ := colorRamp_getD_eq _ hile
    rw [palette_get?_getD _ hile, hc2]
    exact ⟨rfl, hile, ⟨c, hc1, rfl⟩⟩

lemma pixel_none_undefined : pixelValuesToColorFn [.undefined] = none := by
  simp [pixelValuesToColorFn]

lemma pixel_none_null : pixelValuesToColorFn [.null] = none := by
  simp [pixelValuesToColorFn]

lemma pixel_none_nan : pixelValuesToColorFn [.nan] = none := by
  simp [pixelValuesToColorFn, jsIsNaN]

lemma pixel_none_lt (q : ℚ) (h : q < -2) : pixelValuesToColorFn [.num q] = none := by
  simp only [pixelValuesToColorFn, List.headD]
  rw [if_pos]
  right; right; right
  simp [jsLtNum, rampMin, h]

lemma canvas_transparent_undefined : canvasWritePixel .undefined = .transparent := by
  simp [canvasWritePixel]

lemma canvas_transparent_nan : canvasWritePixel .nan = .transparent := by
  simp [canvasWritePixel, jsIsNaN]

lemma canvas_transparent_lt (q : ℚ) (h : q < -2) :
    canvasWritePixel (.num q) = .transparent := by
  simp only [canvasWritePixel]
  rw [if_pos]
  right; right
  simp [jsLtNum, rampMin, h]

/-- On `null` the canvas loop falls through its guard — which, unlike the
GeoRasterLayer callback, does not test for `null` — and then `Math.min` /
`Math.max` coerce `null` to 0, so the loop behaves as on the sample 0. -/
lemma canvasWritePixel_null_eq : canvasWritePixel JSVal.null = canvasWritePixel (.num 0) := by
  have h1 : ¬(JSVal.null = .undefined ∨ jsIsNaN .null = true
      ∨ jsLtNum .null rampMin = true) := by
    simp [jsIsNaN, jsLtNum, rampMin]
  have h2 : ¬(JSVal.num 0 = .undefined ∨ jsIsNaN (.num 0) = true
      ∨ jsLtNum (.num 0) rampMin = true) :=
    guardB_false 0 (by norm_num)
  simp only [canvasWritePixel, jsToNum]
  rw [if_neg h1, if_neg h2]

lemma sourceIndex_zero : sourceIndex 0 = 9 := by
  norm_num [sourceIndex, rampMin, rampMax, rampRange, min_def, max_def]

lemma canvas_null_color : canvasWritePixel JSVal.null = PixelWrite.color (88, 28, 135) := by
  rw [canvasWritePixel_null_eq]
  obtain ⟨-, -, c, hc1, hc2⟩ := pixel_paths_eq 0 (by norm_num)
  rw [sourceIndex_zero] at hc1
  have hx : hexToRgb (purpleGradientColors.getD 9 "") = some (88, 28, 135) := by decide
  rw [hx] at hc1
  rw [hc2, (Option.some.inj hc1).symm]

lemma sourceIndex_unclamped (v : ℚ) (hv1 : -2 ≤ v) (hv2 : v ≤ 0.2) :
    sourceIndex v = min 9 (Int.toNat ⌊(v - (-2)) / 2.2 * 10⌋) := by
  have hclamp : max rampMin (min rampMax v) = v := by
    rw [min_eq_right (by norm_num [rampMax]; linarith),
      max_eq_right (by norm_num [rampMin]; linarith)]
  rw [sourceIndex, hclamp]
  norm_num [rampMin, rampRange, rampMax]

lemma canvasWritePixel_eval (q : ℚ) (h : -2 ≤ q) (i : ℕ) (hsi : sourceIndex q = i)
    (c : ℕ × ℕ × ℕ) (hc : hexToRgb (purpleGradientColors.getD i "") = some c) :
    canvasWritePixel (.num q) = PixelWrite.color c := by
  obtain ⟨-, -, c', hc1, hc2⟩ := pixel_paths_eq q h
  rw [hsi] at hc1
  rw [hc] at hc1
  rw [hc2, (Option.some.inj hc1).symm]

lemma sourceIndex_m19 : sourceIndex (-1.9) = 0 := by
  norm_num [sourceIndex, rampMin, rampMax, rampRange, min_def, max_def]

lemma sourceIndex_01 : sourceIndex 0.1 = 9 := by
  norm_num [sourceIndex, rampMin, rampMax, rampRange, min_def, max_def]

lemma canvasWritePixel_at_m19 :
    canvasWritePixel (.num (-1.9)) = PixelWrite.color (248, 244, 255) :=
  canvasWritePixel_eval (-1.9) (by norm_num) 0 sourceIndex_m19 _ (by decide)

lemma canvasWritePixel_at_01 :
    canvasWritePixel (.num 0.1) = PixelWrite.color (88, 28, 135) :=
  canvasWritePixel_eval 0.1 (by norm_num) 9 sourceIndex_01 _ (by decide)

lemma canvasWritePixel_at_m3 : canvasWritePixel (.num (-3)) = PixelWrite.transparent :=
  canvas_transparent_lt (-3) (by norm_num)

/-! ### Claim theorems -/

/-- C1: for every `v` in `[-2.0, 0.2]` the color callback returns exactly
the palette color numbered `min(9, floor((v - (-2.0)) / 2.2 * 10))`, the
overlay is drawn at 0.7 opacity, `colorFor(-2.0)` is palette 0,
`colorFor(0.2)` is palette 9, and every interior decile boundary
`-2.0 + k*0.22` (k = 1..9) falls at the start of bin `k`. -/
theorem colorFor_decile_binning (v : ℚ) (hv1 : -2 ≤ v) (hv2 : v ≤ 0.2)
    (k : ℕ) (hk1 : 1 ≤ k) (hk2 : k ≤ 9) :
    pixelValuesToColorFn [.num v] =
      purpleGradientColors.get? (min 9 (Int.toNat ⌊(v - (-2)) / 2.2 * 10⌋)) ∧
    layerOpacity = 0.7 ∧
    pixelValuesToColorFn [.num (-2)] = purpleGradientColors.get? 0 ∧
    pixelValuesToColorFn [.num 0.2] = purpleGradientColors.get? 9 ∧
    pixelValuesToColorFn [.num (-2 + (k : ℚ) * 0.22)] = purpleGradientColors.get? k := by
  refine ⟨?_, rfl, ?_, ?_, ?_⟩
  · rw [(pixel_paths_eq v hv1).1, sourceIndex_unclamped v hv1 hv2]
  · rw [(pixel_paths_eq (-2) (by norm_num)).1]
    congr 1
    norm_num [sourceIndex, rampMin, rampMax, rampRange, min_def, max_def]
  · rw [(pixel_paths_eq 0.2 (by norm_num)).1]
    congr 1
    norm_num [sourceIndex, rampMin, rampMax, rampRange, min_def, max_def]
  · have hk9 : (k : ℚ) ≤ 9 := by exact_mod_cast hk2
    have hq1 : (-2 : ℚ) ≤ -2 + (k : ℚ) * 0.22 := by
      nlinarith [Nat.cast_nonneg (α := ℚ) k]
    have hq2 : (-2 : ℚ) + (k : ℚ) * 0.22 ≤ 0.2 := by nlinarith
    rw [(pixel_paths_eq _ hq1).1, sourceIndex_unclamped _ hq1 hq2]
    congr 1
    have harg : (-2 + (k : ℚ) * 0.22 - -2) / 2.2 * 10 = (k : ℚ) := by
      field_simp
      ring
    rw [harg, Int.floor_natCast, Int.toNat_natCast]
    omega

/-- Witness for C1, at `v = 0` and boundary `k = 5`. -/
theorem colorFor_decile_binning_witness :
    ((-2 : ℚ) ≤ 0 ∧ (0 : ℚ) ≤ 0.2 ∧ 1 ≤ 5 ∧ 5 ≤ 9) ∧
    (pixelValuesToColorFn [.num 0] =
        purpleGradientColors.get? (min 9 (Int.toNat ⌊((0 : ℚ) - (-2)) / 2.2 * 10⌋)) ∧
      pixelValuesToColorFn [.num (-2 + ((5 : ℕ) : ℚ) * 0.22)] =
        purpleGradientColors.get? 5) :=
  ⟨⟨by norm_num, by norm_num, by norm_num, by norm_num⟩,
    (colorFor_decile_binning 0 (by norm_num) (by norm_num) 5 (by norm_num) (by norm_num)).1,
    (colorFor_decile_binning 0 (by norm_num) (by norm_num) 5 (by norm_num) (by norm_num)).2.2.2.2⟩

/-- C2: `undefined`, `null`, `NaN` and every value strictly below −2.0 are
rendered fully transparent by the color callback, and the canvas loop is
likewise transparent on the subset of those inputs its guard covers
(`undefined`, `NaN`, below-minimum numbers; it never receives `null`). -/
theorem colorFor_transparent_inputs (q : ℚ) (h : q < -2) :
    pixelValuesToColorFn [.num q] = none ∧
    pixelValuesToColorFn [.undefined] = none ∧
    pixelValuesToColorFn [.null] = none ∧
    pixelValuesToColorFn [.nan] = none ∧
    canvasWritePixel (.num q) = .transparent ∧
    canvasWritePixel .undefined = .transparent ∧
    canvasWritePixel .nan = .transparent :=
  ⟨pixel_none_lt q h, pixel_none_undefined, pixel_none_null, pixel_none_nan,
    canvas_transparent_lt q h, canvas_transparent_undefined, canvas_transparent_nan⟩

/-- Witness for C2, at `q = -3`. -/
theorem colorFor_transparent_inputs_witness :
    ((-3 : ℚ) < -2) ∧ pixelValuesToColorFn [.num (-3)] = none :=
  ⟨by norm_num, (colorFor_transparent_inputs (-3) (by norm_num)).1⟩

/-- Counterexample to C3 as stated: at the input `null` the GeoRasterLayer
callback is transparent but the canvas loop — whose guard omits the `null`
test, coercing `null` to 0 — paints palette entry 9 (RGB (88, 28, 135)), so
the two paths neither agree on transparency nor on a palette index there. -/
theorem render_paths_disagree_at_null :
    pixelValuesToColorFn [JSVal.null] = none ∧
    canvasWritePixel JSVal.null = PixelWrite.color (88, 28, 135) ∧
    PixelWrite.color (88, 28, 135) ≠ PixelWrite.transparent :=
  ⟨pixel_none_null, canvas_null_color, by decide⟩

/-- C3 (amended): on every input other than `null` — in particular on every
value a typed raster array can hold — the two rendering paths agree: both
are transparent, or both select the same palette index (the canvas loop
writing exactly the RGB decoding of the palette color the callback
returns). -/
theorem render_paths_agree_off_null (v : JSVal) (hv : v ≠ JSVal.null) :
    (pixelValuesToColorFn [v] = none ∧ canvasWritePixel v = PixelWrite.transparent) ∨
    (∃ i : ℕ, i ≤ 9 ∧ pixelValuesToColorFn [v] = purpleGradientColors.get? i ∧
      ∃ c, hexToRgb (purpleGradientColors.getD i "") = some c ∧
        canvasWritePixel v = PixelWrite.color c) := by
  cases v with
  | undefined => exact Or.inl ⟨pixel_none_undefined, canvas_transparent_undefined⟩
  | null => exact absurd rfl hv
  | nan => exact Or.inl ⟨pixel_none_nan, canvas_transparent_nan⟩
  | num q =>
    by_cases hq : q < -2
    · exact Or.inl ⟨pixel_none_lt q hq, canvas_transparent_lt q hq⟩
    · push_neg at hq
      obtain ⟨h1, h2, c, hc1, hc2⟩ := pixel_paths_eq q hq
      exact Or.inr ⟨sourceIndex q, h2, h1, c, hc1, hc2⟩

/-- Witness for the amended C3, at the sample `0.1`. -/
theorem render_paths_agree_off_null_witness :
    (JSVal.num 0.1 ≠ JSVal.null) ∧
    ((pixelValuesToColorFn [JSVal.num 0.1] = none ∧
        canvasWritePixel (JSVal.num 0.1) = PixelWrite.transparent) ∨
      (∃ i : ℕ, i ≤ 9 ∧
        pixelValuesToColorFn [JSVal.num 0.1] = purpleGradientColors.get? i ∧
        ∃ c, hexToRgb (purpleGradientColors.getD i "") = some c ∧
          canvasWritePixel (JSVal.num 0.1) = PixelWrite.color c)) :=
  ⟨by simp, render_paths_agree_off_null (JSVal.num 0.1) (by simp)⟩

/-- C4: a decoded bounding box is classified geographic exactly when it
fits in ±180 × ±90; a projected box is replaced by the fixed fallback
(−97.5, −80.0, 25.0, 30.5) with the native bounds preserved in
`originalBounds`, and a geographic box is passed through unchanged. -/
theorem bounds_classification (xmin xmax ymin ymax : ℚ) :
    ((displayBoundsFor xmin xmax ymin ymax).isProjected = false ↔
      (xmin ≥ -180 ∧ xmax ≤ 180 ∧ ymin ≥ -90 ∧ ymax ≤ 90)) ∧
    displayBoundsFor xmin xmax ymin ymax =
      (if xmin ≥ -180 ∧ xmax ≤ 180 ∧ ymin ≥ -90 ∧ ymax ≤ 90 then
        { xmin := xmin, xmax := xmax, ymin := ymin, ymax := ymax,
          isProjected := false, originalBounds := none }
      else
        { xmin := -97.5, xmax := -80.0, ymin := 25.0, ymax := 30.5,
          isProjected := true, originalBounds := some (xmin, xmax, ymin, ymax) }) := by
  unfold displayBoundsFor
  by_cases hg : xmin ≥ -180 ∧ xmax ≤ 180 ∧ ymin ≥ -90 ∧ ymax ≤ 90
  · rw [if_pos hg]
    exact ⟨by simp [hg], rfl⟩
  · rw [if_neg hg]
    exact ⟨by simp [hg], rfl⟩

/-- C5 (code behavior at the failing schedule): select raster A, then
raster B while A is still in flight; B's response arrives first, A's
arrives last.  `loadTiffData` applies each response unconditionally, so
the stale A response overwrites B's and A's overlay ends up attached —
the opposite of the required last-wins rule. -/
theorem stale_response_overwrites_newer :
    (stepComplete ⟨"raster-A", none, none⟩ (.decodeOk ⟨0, 1, 0, 1⟩)
        (stepComplete ⟨"raster-B", none, none⟩ (.decodeOk ⟨2, 3, 2, 3⟩)
          (beginLoad (beginLoad initialTiffState), none))).2 =
      some ⟨0, 1, 0, 1⟩ ∧
    ((⟨0, 1, 0, 1⟩ : Georaster) ≠ ⟨2, 3, 2, 3⟩) :=
  ⟨rfl, by decide⟩

/-- C6: the legend always has exactly 10 entries, entry `i` carries
palette color `i` and the label `"{-2 + 0.22 i} - {-2 + 0.22 (i+1)}"`
rendered with exactly three decimals (so entry 0 is
"-2.000 - -1.780" and entry 9 is "-0.020 - 0.200"), and missing or
non-numeric values format as "N/A". -/
theorem legend_entries (v : Visualization) (d : Option DatasetInfoM) (t : String) :
    ∃ c, useLegend (some v) d t = some c ∧
      c.ranges.length = 10 ∧
      c.ranges.map (fun rg => rg.color) = purpleGradientColors ∧
      c.ranges.map (fun rg => rg.label) =
        ["-2.000 - -1.780", "-1.780 - -1.560", "-1.560 - -1.340",
         "-1.340 - -1.120", "-1.120 - -0.900", "-0.900 - -0.680",
         "-0.680 - -0.460", "-0.460 - -0.240", "-0.240 - -0.020",
         "-0.020 - 0.200"] ∧
      formatLegendNumber .null = "N/A" ∧
      formatLegendNumber .undefined = "N/A" ∧
      formatLegendNumber .nan = "N/A" := by
  refine ⟨_, rfl, ?_, ?_, ?_, rfl, rfl, rfl⟩
  · simp only [useLegend, List.length_map, List.enum_length]
    decide
  · simp [useLegend, purpleGradientColors, List.enum, List.enumFrom, List.map]
  · simp only [useLegend, purpleGradientColors, List.enum, List.enumFrom, List.map,
      formatLegendNumber]
    norm_num [toFixed3, abs_of_nonneg]
    decide

/-- C7: the resource ordering is newest first — the sorted list is
descending in `created`-or-`last_modified` date (missing dates counting as
epoch 0) and is a permutation of the input; on three dated resources plus
one undated one it yields T3, T2, T1, then the undated resource. -/
theorem tiff_resources_newest_first :
    (∀ rs : List CkanResource, List.Sorted tiffSortRel (sortedTiffs rs) ∧
      List.Perm (sortedTiffs rs) rs) ∧
    sortedTiffs [⟨"r1", some 100, none⟩, ⟨"rm", none, none⟩,
        ⟨"r3", some 300, none⟩, ⟨"r2", none, some 200⟩] =
      [⟨"r3", some 300, none⟩, ⟨"r2", none, some 200⟩,
        ⟨"r1", some 100, none⟩, ⟨"rm", none, none⟩] :=
  ⟨fun rs => ⟨List.sorted_insertionSort tiffSortRel rs,
    List.perm_insertionSort tiffSortRel rs⟩, by decide⟩

/-- C8: when the fetch succeeds but decoding fails, the load completes in
the placeholder state — no georaster, `placeholder = true`, the non-empty
failure message recorded on it — with the loading flag cleared, the overlay
effect leaving whatever layer was attached untouched (no new overlay), and
a subsequent retry of the same load path succeeding normally. -/
theorem decode_failure_placeholder (s : TiffState) (layer : Option Georaster)
    (r : CkanResource) (g : Georaster) (msg : String) (h : msg ≠ "") :
    (completeLoad r (.decodeFail msg) (beginLoad s)).tiffData =
      some { georaster := none, info := r, isActualData := false,
             placeholder := true, errorMsg := some msg } ∧
    some msg ≠ some "" ∧
    (completeLoad r (.decodeFail msg) (beginLoad s)).loading = false ∧
    applyLayerEffect (completeLoad r (.decodeFail msg) (beginLoad s)) layer = layer ∧
    (completeLoad r (.decodeOk g)
        (beginLoad (completeLoad r (.decodeFail msg) (beginLoad s)))).tiffData =
      some { georaster := some g, info := r, isActualData := true,
             placeholder := false, errorMsg := none } := by
  refine ⟨rfl, by simpa using h, rfl, ?_, rfl⟩
  simp [applyLayerEffect, completeLoad, beginLoad]

/-- Witness for C8, with the message "parse error" from the initial state. -/
theorem decode_failure_placeholder_witness :
    ("parse error" ≠ "") ∧
    (completeLoad ⟨"A", none, none⟩ (.decodeFail "parse error")
        (beginLoad initialTiffState)).loading = false :=
  ⟨by simp, (decode_failure_placeholder initialTiffState none ⟨"A", none, none⟩
    ⟨0, 1, 0, 1⟩ "parse error" (by simp)).2.2.1⟩

/-- C9 (code behavior at the failing input): on a 2×1 grid with 2
interleaved bands (samples [−1.9, 0.1, −1.9, −3]) the canvas loop writes
canvas pixel 1 from sample 1 — pixel 0's second band — producing palette 9
(88, 28, 135), although the first band of grid pixel 1 (sample 2, −1.9)
classifies as palette 0 (248, 244, 255); samples past the buffer are
silently dropped.  The GeoRasterLayer callback, by contrast, depends only
on the first band. -/
theorem canvas_misinterleaves_bands :
    canvasImageData [.num (-1.9), .num 0.1, .num (-1.9), .num (-3)] 2 1 =
      [248, 244, 255, 255 * 0.7, 88, 28, 135, 255 * 0.7] ∧
    canvasWritePixel (.num (-1.9)) = PixelWrite.color (248, 244, 255) ∧
    ((248, 244, 255) : ℕ × ℕ × ℕ) ≠ (88, 28, 135) ∧
    (∀ (rest : List JSVal) (v : JSVal),
      pixelValuesToColorFn (v :: rest) = pixelValuesToColorFn [v]) := by
  refine ⟨?_, canvasWritePixel_at_m19, by decide, fun rest v => rfl⟩
  have hr4 : List.range 4 = [0, 1, 2, 3] := by decide
  simp only [canvasImageData, List.length_cons, List.length_nil, hr4, List.foldl,
    List.getD, List.get?, Option.getD_some, canvasWritePixel_at_m19,
    canvasWritePixel_at_01, canvasWritePixel_at_m3]
  norm_num [List.set, List.replicate]

/-- C10: the legend configuration exists exactly when a visualization is
selected — `useLegend` is null on a missing visualization and otherwise
returns a configuration with one range per palette color, whatever the
dataset descriptor. -/
theorem legend_iff_visualization (d : Option DatasetInfoM) (t : String)
    (v : Visualization) :
    useLegend none d t = none ∧
    ∃ c, useLegend (some v) d t = some c ∧
      c.ranges.length = purpleGradientColors.length :=
  ⟨rfl, ⟨_, rfl, by simp [List.length_map, List.enum_length]⟩⟩

end FloodViz
